import Mathlib

/-!
The `ImageGenerator` of go-wkhtmlconverter (wkhtmltoimage.go)

A shallow embedding of the command-building and process-execution wrapper
around the external `wkhtmltoimage` binary, and theorems about argument
assembly, duplicate-flag validation, the `run` life cycle and binary discovery.

Go strings are embedded as Lean `String`s. A Go `error` value is a `GoError`
(`nil` is `none`). Methods with a pointer receiver that mutate the generator
return the new generator next to their result. Everything the operating system
decides (the subprocess, the context, the lookups) is an explicit argument.
-/

namespace Wkhtml

/-! ## Errors and library functions used by the source -/

/-- A Go `error` value: its `Error()` text and whether `errors.Is(err, exec.ErrDot)` holds. -/
structure GoError where
  msg : String
  errDot : Bool
  deriving DecidableEq, Repr

/-- Go library `fmt.Errorf(format, ...)` with only `%s` verbs: a fresh error carrying the text,
wrapping nothing (so it is never `exec.ErrDot`). -/
def Errorf (text : String) : GoError := ⟨text, false⟩

/-- Go library `errors.Is(err, exec.ErrDot)`; `false` on a nil error. -/
def isErrDot : Option GoError → Bool
  | none => false
  | some e => e.errDot

/-- Go library `strings.HasPrefix(s, pre)`. -/
def HasPrefix (s pre : String) : Bool := pre.data.isPrefixOf s.data

/-- Go library `strings.Join(elems, sep)`: empty for no element, the element itself for one,
otherwise the first element followed by `sep ++ s` for every later `s`. -/
def Join (elems : List String) (sep : String) : String :=
  match elems with
  | [] => ""
  | [a] => a
  | a :: rest => rest.foldl (fun b s => b ++ sep ++ s) a

/-- Go library `unicode.IsSpace`: the Unicode White_Space code points. -/
def isSpace (c : Char) : Bool :=
  let n := c.toNat
  (9 ≤ n && n ≤ 13) || n == 32 || n == 0x85 || n == 0xA0 || n == 0x1680 ||
    (0x2000 ≤ n && n ≤ 0x200A) || n == 0x2028 || n == 0x2029 || n == 0x202F ||
    n == 0x205F || n == 0x3000

/-- Go library `strings.TrimSpace(s)`: `s` without its leading and trailing white space. -/
def TrimSpace (s : String) : String :=
  ⟨((s.data.dropWhile isSpace).reverse.dropWhile isSpace).reverse⟩

/-! ## The option set (`imageOptions`) -/

/-- Modelled from the spec: the `stringOption` type (absent from the sources), a tri-state
option that is unset or holds a string value. -/
abbrev stringOption := Option String

/-- Modelled from the spec: the `uintOption` type (absent from the sources), a tri-state
option that is unset or holds an unsigned integer. -/
abbrev uintOption := Option Nat

/-- Modelled from the spec: the `boolOption` type (absent from the sources), a tri-state
option that is unset or holds a boolean. -/
abbrev boolOption := Option Bool

/-- Modelled from the spec: `Set(value)` of an option (absent from the sources): from unset
or any prior value to the given value. -/
def Option.Set {α : Type} (_o : Option α) (v : α) : Option α := some v

/-- Modelled from the spec: serialization of a string option (absent from the sources):
nothing if unset, else the flag token followed by the value token. -/
def stringOption.Parse (flag : String) (o : stringOption) : List String :=
  match o with
  | none => []
  | some v => ["--" ++ flag, v]

/-- Modelled from the spec: serialization of an unsigned-integer option (absent from the
sources): nothing if unset, else the flag token followed by the value in decimal. -/
def uintOption.Parse (flag : String) (o : uintOption) : List String :=
  match o with
  | none => []
  | some v => ["--" ++ flag, Nat.repr v]

/-- Modelled from the spec: serialization of a boolean flag (absent from the sources):
a single token with no argument when the flag is set to true, nothing when it is unset.
A flag set to false is serialized like an unset one. -/
def boolOption.Parse (flag : String) (o : boolOption) : List String :=
  match o with
  | some true => ["--" ++ flag]
  | _ => []

/-- Modelled from the spec: the `imageOptions` struct (absent from the sources), the options
the sources and their test name, in the declaration order the test pins down. -/
structure imageOptions where
  Format : stringOption
  Height : uintOption
  Width : uintOption
  Quality : uintOption
  Quiet : boolOption
  deriving DecidableEq, Repr

/-- Modelled from the spec: `newImageOptions()` (absent from the sources): every option unset. -/
def newImageOptions : imageOptions := ⟨none, none, none, none, none⟩

/-- Modelled from the spec: `imageOptions.Args()` (absent from the sources): the tokens of
every set option, in declaration order. -/
def imageOptions.Args (o : imageOptions) : List String :=
  stringOption.Parse "format" o.Format ++ uintOption.Parse "height" o.Height ++
    uintOption.Parse "width" o.Width ++ uintOption.Parse "quality" o.Quality ++
    boolOption.Parse "quiet" o.Quiet

/-! ## The generator -/

/-- An `io.Reader` handed to the generator, identified by the bytes it yields. -/
structure Reader where
  data : List Nat
  deriving DecidableEq, Repr

/-- An `io.Writer` handed to the generator, identified by a handle. -/
structure Writer where
  handle : Nat
  deriving DecidableEq, Repr

/-- The `ImageGenerator` struct. `none` is a nil reader or writer; `outbuf` is the content
of the internal output buffer. -/
structure ImageGenerator where
  imageOptions : imageOptions
  input : Option Reader
  inputFile : String
  OutputFile : String
  binPath : String
  outbuf : List Nat
  outWriter : Option Writer
  stdErr : Option Writer
  deriving DecidableEq, Repr

/-- Source `NewImagePreparer()`. -/
def NewImagePreparer : ImageGenerator :=
  ⟨newImageOptions, none, "", "", "", [], none, none⟩

/-- Source `ImageGenerator.Args()`: forces `Quiet` to true, then the option tokens, the input
token and the output token. Returns the tokens and the generator it leaves behind. -/
def ImageGenerator.Args (imgg : ImageGenerator) : List String × ImageGenerator :=
  let imgg :=
    { imgg with
      imageOptions := { imgg.imageOptions with Quiet := Option.Set imgg.imageOptions.Quiet true } }
  let args := [] ++ imgg.imageOptions.Args
  let args := if imgg.inputFile != "" then args ++ [imgg.inputFile] else args ++ ["-"]
  let args := if imgg.OutputFile != "" then args ++ [imgg.OutputFile] else args ++ ["-"]
  (args, imgg)

/-- Source `ImageGenerator.ArgString()`. -/
def ImageGenerator.ArgString (imgg : ImageGenerator) : String × ImageGenerator :=
  (Join imgg.Args.1 " ", imgg.Args.2)

/-- Source `ImageGenerator.Bytes()`: the content of the internal output buffer. -/
def ImageGenerator.Bytes (imgg : ImageGenerator) : List Nat := imgg.outbuf

/-- Source `ImageGenerator.SetOutput(w)`. -/
def ImageGenerator.SetOutput (imgg : ImageGenerator) (w : Option Writer) : ImageGenerator :=
  { imgg with outWriter := w }

/-- Source `ImageGenerator.SetStderr(w)`. -/
def ImageGenerator.SetStderr (imgg : ImageGenerator) (w : Option Writer) : ImageGenerator :=
  { imgg with stdErr := w }

/-- Source `ImageGenerator.checkDuplicateFlags()`, the loop over the option tokens: `options`
holds the flag tokens seen so far. -/
def checkDuplicateFlags.loop : List String → List String → Option GoError
  | [], _ => none
  | arg :: rest, options =>
    if HasPrefix arg "--" then
      if options.any (fun option => option == arg) then
        some (Errorf ("duplicate argument: " ++ arg))
      else checkDuplicateFlags.loop rest (options ++ [arg])
    else checkDuplicateFlags.loop rest options

/-- Source `ImageGenerator.checkDuplicateFlags()`. -/
def ImageGenerator.checkDuplicateFlags (imgg : ImageGenerator) : Option GoError :=
  checkDuplicateFlags.loop imgg.imageOptions.Args []

/-! ## Binary discovery -/

/-- What `findPath` reads from its surroundings: the result of
`filepath.Abs(filepath.Dir(os.Args[0]))`, the package variable `lookPath`,
`os.Getenv` and `filepath.Join`. -/
structure PathEnv where
  exeDir : String × Option GoError
  lookPath : String → String × Option GoError
  Getenv : String → String
  Join : String → String → String

/-- What a call of `findPath` leaves behind: the returned error, the generator, the
process-wide `imageBinPath` and the files handed to `lookPath`, in call order. -/
structure FindResult where
  err : Option GoError
  gen : ImageGenerator
  imageBinPath : String
  lookups : List String
  deriving DecidableEq, Repr

/-- Source `ImageGenerator.findPath()`; `imageBinPath` is the value of the process-wide store
(`GetImagePath()`) when the call starts. -/
def ImageGenerator.findPath (env : PathEnv) (imageBinPath : String) (imgg : ImageGenerator) :
    FindResult :=
  let exe := "wkhtmltoimage"
  let imgg := { imgg with binPath := imageBinPath }
  if imgg.binPath != "" then ⟨none, imgg, imageBinPath, []⟩
  else
    match env.exeDir with
    | (_, some err) => ⟨some err, imgg, imageBinPath, []⟩
    | (exeDir, none) =>
      let f1 := env.Join exeDir exe
      let r1 := env.lookPath f1
      if r1.2 = none ∧ r1.1 ≠ "" then ⟨none, { imgg with binPath := r1.1 }, r1.1, [f1]⟩
      else
        let r2 := env.lookPath exe
        if isErrDot r2.2 then ⟨r2.2, imgg, imageBinPath, [f1, exe]⟩
        else if r2.2 = none ∧ r2.1 ≠ "" then
          ⟨none, { imgg with binPath := r2.1 }, r2.1, [f1, exe]⟩
        else
          let dir := env.Getenv "WKHTMLTOIMAGE_PATH"
          if dir = "" then ⟨some (Errorf (exe ++ " not found")), imgg, imageBinPath, [f1, exe]⟩
          else
            let f3 := env.Join dir exe
            let r3 := env.lookPath f3
            if isErrDot r3.2 then ⟨r3.2, imgg, imageBinPath, [f1, exe, f3]⟩
            else if r3.2 = none ∧ r3.1 ≠ "" then
              ⟨none, { imgg with binPath := r3.1 }, r3.1, [f1, exe, f3]⟩
            else ⟨some (Errorf (exe ++ " not found")), imgg, imageBinPath, [f1, exe, f3]⟩

/-- Source `NewImageGenerator()`: a fresh generator and the outcome of its `findPath`. -/
def NewImageGenerator (env : PathEnv) (imageBinPath : String) : FindResult :=
  NewImagePreparer.findPath env imageBinPath

/-- The calls of `newTestImageGenerator` in the test file, for any values: `Format.Set(f)`,
`Height.Set(h)`, `Width.Set(w)` and `Quality.Set(q)`. -/
def setTestOptions (imgg : ImageGenerator) (f : String) (h w q : Nat) : ImageGenerator :=
  { imgg with
    imageOptions :=
      { imgg.imageOptions with
        Format := Option.Set imgg.imageOptions.Format f
        Height := Option.Set imgg.imageOptions.Height h
        Width := Option.Set imgg.imageOptions.Width w
        Quality := Option.Set imgg.imageOptions.Quality q } }

/-! ## Running the subprocess -/

/-- A `context.Context` as `run` sees it: what `ctx.Err()` reports when `run` consults it,
once `cmd.Run()` has returned. -/
structure Context where
  Err : Option GoError
  deriving DecidableEq, Repr

/-- The `exec.Cmd` that `run` builds: path, arguments and wiring. `stdout = none` is the
internal output buffer, `stderr = none` a fresh capture buffer, `stdin = none` no input. -/
structure Command where
  path : String
  args : List String
  stdin : Option Reader
  stdout : Option Writer
  stderr : Option Writer
  deriving DecidableEq, Repr

/-- What `cmd.Run()` did: its error, and what the subprocess wrote to its standard output
and standard error. -/
structure Outcome where
  err : Option GoError
  stdout : List Nat
  stderr : String
  deriving DecidableEq, Repr

/-- The process layer: the outcome of running a command under a context. -/
abbrev Exec := Context → Command → Outcome

/-- What a call of `run` leaves behind: the returned error, the generator, and the
commands it launched. -/
structure RunResult where
  err : Option GoError
  gen : ImageGenerator
  launched : List Command
  deriving DecidableEq, Repr

/-- The command `run` creates from a generator that passed validation:
`exec.CommandContext(ctx, imgg.binPath, imgg.Args()...)` and the wiring that follows. -/
def ImageGenerator.command (imgg : ImageGenerator) : Command :=
  ⟨imgg.Args.2.binPath, imgg.Args.1, imgg.Args.2.input, imgg.Args.2.outWriter,
    imgg.Args.2.stdErr⟩

/-- Source `ImageGenerator.run(ctx)`. -/
def ImageGenerator.run (exec : Exec) (imgg : ImageGenerator) (ctx : Context) : RunResult :=
  match imgg.checkDuplicateFlags with
  | some err => ⟨some err, imgg, []⟩
  | none =>
    let cmd := imgg.command
    let imgg := imgg.Args.2
    let errBuf := imgg.stdErr.isNone
    let imgg := if imgg.outWriter.isSome then imgg else { imgg with outbuf := [] }
    let out := exec ctx cmd
    let imgg :=
      if imgg.outWriter.isSome then imgg else { imgg with outbuf := imgg.outbuf ++ out.stdout }
    match out.err with
    | some err =>
      match ctx.Err with
      | some ctxErr => ⟨some ctxErr, imgg, [cmd]⟩
      | none =>
        if errBuf && TrimSpace out.stderr != "" then
          ⟨some (Errorf (out.stderr ++ "\n" ++ err.msg)), imgg, [cmd]⟩
        else ⟨some err, imgg, [cmd]⟩
    | none => ⟨none, imgg, [cmd]⟩

/-- Source `ImageGenerator.CreateFromFile(filename)`. -/
def ImageGenerator.CreateFromFile (exec : Exec) (imgg : ImageGenerator) (filename : String) :
    RunResult :=
  ImageGenerator.run exec { imgg with inputFile := filename, input := none } ⟨none⟩

/-- Source `ImageGenerator.CreateFromIOReader(input)`. -/
def ImageGenerator.CreateFromIOReader (exec : Exec) (imgg : ImageGenerator)
    (input : Option Reader) : RunResult :=
  ImageGenerator.run exec { imgg with input := input, inputFile := "" } ⟨none⟩

/-- Source `ImageGenerator.CreateContext(ctx)`. -/
def ImageGenerator.CreateContext (exec : Exec) (imgg : ImageGenerator) (ctx : Context) :
    RunResult :=
  ImageGenerator.run exec imgg ctx

/-! ## Concrete generators, process layers and environments -/

/-- A generator whose format value is the text `--height`, with the height set as well. -/
def heightValueGenerator : ImageGenerator :=
  { NewImagePreparer with imageOptions := ⟨some "--height", some 1, none, none, none⟩ }

/-- A fresh generator whose input file is named `--quiet`. -/
def quietInputGenerator : ImageGenerator :=
  { NewImagePreparer with inputFile := "--quiet" }

/-- A process layer whose every command succeeds and writes three bytes. -/
def succeedingExec : Exec := fun _ _ => ⟨none, [137, 80, 78], ""⟩

/-- A process layer whose every command exits with status 1 after a diagnostic. -/
def failingExec : Exec :=
  fun _ _ => ⟨some ⟨"exit status 1", false⟩, [], "Error: Failed to load page\n"⟩

/-- A context that is done: its deadline has passed. -/
def expiredContext : Context := ⟨some ⟨"context deadline exceeded", false⟩⟩

/-- An environment in which every lookup fails. -/
def brokenEnv : PathEnv :=
  ⟨("", some ⟨"getwd: no such file or directory", false⟩),
    fun _ => ("", some ⟨"executable file not found in $PATH", false⟩),
    fun _ => "/nonexistent", fun a b => a ++ "/" ++ b⟩

/-- An environment whose search-path lookup reports `exec.ErrDot`; nothing lies in the
program directory. -/
def dotSearchEnv : PathEnv :=
  ⟨("/opt/app", none),
    fun f => if f = "wkhtmltoimage" then
        ("wkhtmltoimage", some ⟨"cannot run executable found relative to current directory", true⟩)
      else ("", some ⟨"no such file or directory", false⟩),
    fun _ => "/opt/wk", fun a b => a ++ "/" ++ b⟩

/-! ## Helper lemmas -/

theorem loop_eq_none_iff (toks options : List String) :
    checkDuplicateFlags.loop toks options = none ↔
      ∀ t, HasPrefix t "--" = true → t ∈ toks → toks.count t = 1 ∧ t ∉ options := by
  induction toks generalizing options with
  | nil => simp [checkDuplicateFlags.loop]
  | cons arg rest ih =>
    unfold checkDuplicateFlags.loop
    by_cases hp : HasPrefix arg "--" = true
    · by_cases hm : arg ∈ options
      · have hany : options.any (fun option => option == arg) = true := by
          simpa using hm
        simp only [hp, hany, if_true]
        constructor
        · intro h; cases h
        · intro h
          exact absurd hm (h arg hp (List.mem_cons_self _ _)).2
      · have hany : options.any (fun option => option == arg) = false := by
          simp only [List.any_eq_false, beq_iff_eq]
          intro x hx hxa
          exact hm (hxa ▸ hx)
        simp only [hp, hany, if_true, Bool.false_eq_true, if_false]
        rw [ih]
        constructor
        · intro h t ht hmem
          by_cases hta : t = arg
          · subst hta
            have hnr : t ∉ rest := fun hr => (h t ht hr).2 (by simp)
            refine ⟨?_, hm⟩
            simp [List.count_cons, List.count_eq_zero_of_not_mem hnr]
          · have hr : t ∈ rest := by
              rcases List.mem_cons.1 hmem with h1 | h1
              · exact absurd h1 hta
              · exact h1
            have := h t ht hr
            refine ⟨?_, fun ho => this.2 (by simp [ho])⟩
            rw [List.count_cons_of_ne hta]
            exact this.1
        · intro h t ht hr
          have h1 := h t ht (List.mem_cons_of_mem _ hr)
          have hta : t ≠ arg := by
            intro hta
            subst hta
            have hpos : 0 < List.count t rest := List.count_pos_iff.2 hr
            have := h1.1
            simp [List.count_cons] at this
            omega
          refine ⟨?_, ?_⟩
          · have := h1.1
            rwa [List.count_cons_of_ne hta] at this
          · simp [h1.2, hta]
    · simp only [hp, Bool.false_eq_true, if_false]
      rw [ih]
      constructor
      · intro h t ht hmem
        have hta : t ≠ arg := fun hta => hp (hta ▸ ht)
        have hr : t ∈ rest := by
          rcases List.mem_cons.1 hmem with h1 | h1
          · exact absurd h1 hta
          · exact h1
        rw [List.count_cons_of_ne hta]
        exact h t ht hr
      · intro h t ht hr
        have hta : t ≠ arg := fun hta => hp (hta ▸ ht)
        have := h t ht (List.mem_cons_of_mem _ hr)
        rwa [List.count_cons_of_ne hta] at this

theorem loop_eq_some (toks options : List String) (e : GoError)
    (h : checkDuplicateFlags.loop toks options = some e) :
    ∃ pre t post, toks = pre ++ t :: post ∧ HasPrefix t "--" = true ∧
      (t ∈ options ∨ t ∈ pre) ∧
      (∀ u, HasPrefix u "--" = true → u ∈ pre → pre.count u = 1 ∧ u ∉ options) ∧
      e = Errorf ("duplicate argument: " ++ t) := by
  induction toks generalizing options with
  | nil => simp [checkDuplicateFlags.loop] at h
  | cons arg rest ih =>
    unfold checkDuplicateFlags.loop at h
    by_cases hp : HasPrefix arg "--" = true
    · by_cases hm : arg ∈ options
      · have hany : options.any (fun option => option == arg) = true := by
          simpa using hm
        simp only [hp, hany, if_true, Option.some.injEq] at h
        exact ⟨[], arg, rest, rfl, hp, Or.inl hm, by simp, h.symm⟩
      · have hany : options.any (fun option => option == arg) = false := by
          simp only [List.any_eq_false, beq_iff_eq]
          intro x hx hxa
          exact hm (hxa ▸ hx)
        simp only [hp, hany, if_true, Bool.false_eq_true, if_false] at h
        obtain ⟨pre, t, post, hs, ht, hin, hpre, he⟩ := ih _ h
        refine ⟨arg :: pre, t, post, by simp [hs], ht, ?_, ?_, he⟩
        · rcases hin with h1 | h1
          · rcases List.mem_append.1 h1 with h2 | h2
            · exact Or.inl h2
            · right
              simp at h2
              simp [h2]
          · exact Or.inr (List.mem_cons_of_mem _ h1)
        · intro u hu hmem
          by_cases hua : u = arg
          · subst hua
            have hnr : u ∉ pre := fun hr => (hpre u hu hr).2 (by simp)
            refine ⟨?_, hm⟩
            simp [List.count_cons, List.count_eq_zero_of_not_mem hnr]
          · have hr : u ∈ pre := by
              rcases List.mem_cons.1 hmem with h1 | h1
              · exact absurd h1 hua
              · exact h1
            have := hpre u hu hr
            refine ⟨?_, fun ho => this.2 (by simp [ho])⟩
            rw [List.count_cons_of_ne hua]
            exact this.1
    · simp only [hp, Bool.false_eq_true, if_false] at h
      obtain ⟨pre, t, post, hs, ht, hin, hpre, he⟩ := ih _ h
      refine ⟨arg :: pre, t, post, by simp [hs], ht, ?_, ?_, he⟩
      · rcases hin with h1 | h1
        · exact Or.inl h1
        · exact Or.inr (List.mem_cons_of_mem _ h1)
      · intro u hu hmem
        have hua : u ≠ arg := fun hua => hp (hua ▸ hu)
        have hr : u ∈ pre := by
          rcases List.mem_cons.1 hmem with h1 | h1
          · exact absurd h1 hua
          · exact h1
        rw [List.count_cons_of_ne hua]
        exact hpre u hu hr

theorem dropWhile_all (p : Char → Bool) (l : List Char) :
    (∀ c ∈ l.dropWhile p, p c = true) ↔ ∀ c ∈ l, p c = true := by
  induction l with
  | nil => simp
  | cons a t ih =>
    by_cases ha : p a = true
    · simp [List.dropWhile_cons, ha, ih]
    · simp [List.dropWhile_cons, ha]

theorem TrimSpace_eq_empty_iff (s : String) :
    TrimSpace s = "" ↔ ∀ c ∈ s.data, isSpace c = true := by
  have h1 : TrimSpace s = "" ↔
      ((s.data.dropWhile isSpace).reverse.dropWhile isSpace).reverse = [] := by
    constructor
    · intro h
      exact congrArg String.data h
    · intro h
      exact String.ext h
  rw [h1, List.reverse_eq_nil_iff, List.dropWhile_eq_nil_iff]
  constructor
  · intro h
    exact (dropWhile_all isSpace s.data).1 (fun c hc => h c (List.mem_reverse.2 hc))
  · intro h c hc
    exact (dropWhile_all isSpace s.data).2 h c (List.mem_reverse.1 hc)

theorem findPath_gen (env : PathEnv) (cached : String) (imgg : ImageGenerator) :
    (imgg.findPath env cached).gen =
      { imgg with binPath := (imgg.findPath env cached).gen.binPath } := by
  unfold ImageGenerator.findPath
  dsimp only
  repeat' split
  all_goals rfl

/-! ## Argument assembly -/

/-- C1: `Args()` returns the option tokens of the embedded option set, serialized after
`Quiet` has been forced to true, followed by the input token (`inputFile`, or `-` when it
is empty) and the output token (`OutputFile`, or `-` when it is empty); so the result has
at least two elements and its last two elements are the input and output tokens. -/
theorem Args_options_input_output (imgg : ImageGenerator) :
    imgg.Args.2.imageOptions = { imgg.imageOptions with Quiet := some true } ∧
    imgg.Args.1 = imgg.Args.2.imageOptions.Args ++
      [if imgg.inputFile = "" then "-" else imgg.inputFile] ++
      [if imgg.OutputFile = "" then "-" else imgg.OutputFile] ∧
    2 ≤ imgg.Args.1.length ∧
    imgg.Args.1.drop (imgg.Args.1.length - 2) =
      [if imgg.inputFile = "" then "-" else imgg.inputFile,
       if imgg.OutputFile = "" then "-" else imgg.OutputFile] := by
  have h : imgg.Args.1 = ({ imgg.imageOptions with Quiet := some true } : imageOptions).Args ++
      [if imgg.inputFile = "" then "-" else imgg.inputFile,
       if imgg.OutputFile = "" then "-" else imgg.OutputFile] := by
    by_cases h1 : imgg.inputFile = "" <;> by_cases h2 : imgg.OutputFile = "" <;>
      simp [ImageGenerator.Args, Option.Set, h1, h2]
  refine ⟨rfl, ?_, ?_, ?_⟩
  · rw [h]
    simp [ImageGenerator.Args, Option.Set]
  · rw [h]
    simp
  · rw [h]
    simp

/-- C2: a fresh generator (from `NewImagePreparer`, or from `NewImageGenerator` in any
environment) on which only `Format.Set(f)`, `Height.Set(h)`, `Width.Set(w)` and
`Quality.Set(q)` were called, with no input or output file, has `Args()` equal to
`--format f --height h --width w --quality q --quiet - -` (numbers in decimal) and
`ArgString()` equal to these tokens joined by single spaces; for `png`, 100, 100, 100 it
is the string the test of the repository expects. -/
theorem Args_of_test_options (f : String) (h w q : Nat) (env : PathEnv) (cached : String) :
    (setTestOptions NewImagePreparer f h w q).Args.1 =
      ["--format", f, "--height", Nat.repr h, "--width", Nat.repr w,
        "--quality", Nat.repr q, "--quiet", "-", "-"] ∧
    (setTestOptions (NewImageGenerator env cached).gen f h w q).Args.1 =
      ["--format", f, "--height", Nat.repr h, "--width", Nat.repr w,
        "--quality", Nat.repr q, "--quiet", "-", "-"] ∧
    (setTestOptions NewImagePreparer f h w q).ArgString.1 =
      "--format " ++ f ++ " --height " ++ Nat.repr h ++ " --width " ++ Nat.repr w ++
        " --quality " ++ Nat.repr q ++ " --quiet - -" ∧
    (setTestOptions (NewImageGenerator env cached).gen f h w q).ArgString.1 =
      "--format " ++ f ++ " --height " ++ Nat.repr h ++ " --width " ++ Nat.repr w ++
        " --quality " ++ Nat.repr q ++ " --quiet - -" ∧
    (setTestOptions NewImagePreparer "png" 100 100 100).ArgString.1 =
      "--format png --height 100 --width 100 --quality 100 --quiet - -" := by
  have hA : (setTestOptions NewImagePreparer f h w q).Args.1 =
      ["--format", f, "--height", Nat.repr h, "--width", Nat.repr w,
        "--quality", Nat.repr q, "--quiet", "-", "-"] := by
    simp [setTestOptions, ImageGenerator.Args, NewImagePreparer, newImageOptions, Option.Set,
      imageOptions.Args, stringOption.Parse, uintOption.Parse, boolOption.Parse]
  have hS : (setTestOptions NewImagePreparer f h w q).ArgString.1 =
      "--format " ++ f ++ " --height " ++ Nat.repr h ++ " --width " ++ Nat.repr w ++
        " --quality " ++ Nat.repr q ++ " --quiet - -" := by
    have e1 : (" --height " : String) = " " ++ "--height" ++ " " := by decide
    have e2 : (" --width " : String) = " " ++ "--width" ++ " " := by decide
    have e3 : (" --quality " : String) = " " ++ "--quality" ++ " " := by decide
    have e4 : (" --quiet - -" : String) = " " ++ "--quiet" ++ " " ++ "-" ++ " " ++ "-" := by
      decide
    have e0 : ("--format " : String) = "--format" ++ " " := by decide
    rw [ImageGenerator.ArgString, hA, e0, e1, e2, e3, e4]
    simp only [Join, List.foldl, String.append_assoc]
  have hG : ∀ x : ImageGenerator,
      (setTestOptions (x.findPath env cached).gen f h w q).Args.1 =
        (setTestOptions x f h w q).Args.1 := by
    intro x
    rw [findPath_gen]
    rfl
  refine ⟨hA, ?_, hS, ?_, by decide⟩
  · rw [NewImageGenerator, hG, hA]
  · rw [ImageGenerator.ArgString, NewImageGenerator, hG, ← hS, ImageGenerator.ArgString]

/-- C5, as the code has it: whatever `Quiet` held before the call, the list returned by
`Args()` contains `--quiet` once for the forced `Quiet` option, and once more for every
token of the other options (the option tokens with `Quiet` unset), for `inputFile` and for
`OutputFile` that is the text `--quiet`. So it contains `--quiet` at least once, and
exactly once if and only if no token of another option, nor `inputFile`, nor `OutputFile`
is the text `--quiet`. -/
theorem Args_count_quiet (imgg : ImageGenerator) :
    imgg.Args.1.count "--quiet" =
      ({ imgg.imageOptions with Quiet := none } : imageOptions).Args.count "--quiet" + 1 +
        (if imgg.inputFile = "--quiet" then 1 else 0) +
        (if imgg.OutputFile = "--quiet" then 1 else 0) ∧
    1 ≤ imgg.Args.1.count "--quiet" ∧
    (imgg.Args.1.count "--quiet" = 1 ↔
      ({ imgg.imageOptions with Quiet := none } : imageOptions).Args.count "--quiet" = 0 ∧
        imgg.inputFile ≠ "--quiet" ∧ imgg.OutputFile ≠ "--quiet") := by
  have hi : ∀ x : String, (if (x != "") = true then
        [x] else ["-"]).count "--quiet" = if x = "--quiet" then 1 else 0 := by
    intro x
    by_cases hx : x = ""
    · subst hx
      simp
    · by_cases hq : x = "--quiet"
      · subst hq
        simp
      · simp [hx, hq, List.count_cons]
  have hA : imgg.Args.1 =
      (({ imgg.imageOptions with Quiet := none } : imageOptions).Args ++ ["--quiet"]) ++
      (if (imgg.inputFile != "") = true then [imgg.inputFile] else ["-"]) ++
      (if (imgg.OutputFile != "") = true then [imgg.OutputFile] else ["-"]) := by
    by_cases h1 : imgg.inputFile = "" <;> by_cases h2 : imgg.OutputFile = "" <;>
      simp [ImageGenerator.Args, Option.Set, imageOptions.Args, boolOption.Parse, h1, h2]
  have hc : imgg.Args.1.count "--quiet" =
      ({ imgg.imageOptions with Quiet := none } : imageOptions).Args.count "--quiet" + 1 +
        (if imgg.inputFile = "--quiet" then 1 else 0) +
        (if imgg.OutputFile = "--quiet" then 1 else 0) := by
    rw [hA]
    simp only [List.count_append, hi]
    simp
  refine ⟨hc, ?_, ?_⟩
  · rw [hc]
    omega
  · rw [hc]
    by_cases h1 : imgg.inputFile = "--quiet" <;> by_cases h2 : imgg.OutputFile = "--quiet" <;>
      simp [h1, h2]

/-- C5, counterexample: on a fresh generator whose input file is named `--quiet`, the list
returned by `Args()` contains `--quiet` twice. -/
theorem Args_quiet_twice :
    quietInputGenerator.Args.1 = ["--quiet", "--quiet", "-"] ∧
    quietInputGenerator.Args.1.count "--quiet" = 2 := by
  decide

/-! ## Duplicate-flag validation -/

/-- C3: `checkDuplicateFlags()` fails exactly when some token beginning with `--` occurs
more than once among the option tokens; the error then reads `duplicate argument: t` for
the token `t` whose second occurrence comes first (`t` occurs once before that position,
and no flag token occurs twice before it); `inputFile` and `OutputFile` play no part. -/
theorem checkDuplicateFlags_spec (imgg : ImageGenerator) :
    (imgg.checkDuplicateFlags ≠ none ↔
      ∃ t, HasPrefix t "--" = true ∧ 2 ≤ imgg.imageOptions.Args.count t) ∧
    (∀ e, imgg.checkDuplicateFlags = some e →
      ∃ pre t post, imgg.imageOptions.Args = pre ++ t :: post ∧ HasPrefix t "--" = true ∧
        pre.count t = 1 ∧ (∀ u, HasPrefix u "--" = true → pre.count u ≤ 1) ∧
        e = Errorf ("duplicate argument: " ++ t) ∧ e.msg = "duplicate argument: " ++ t) ∧
    (∀ inF outF : String,
      ({ imgg with inputFile := inF, OutputFile := outF } : ImageGenerator).checkDuplicateFlags =
        imgg.checkDuplicateFlags) := by
  refine ⟨?_, ?_, fun _ _ => rfl⟩
  · unfold ImageGenerator.checkDuplicateFlags
    rw [Ne, loop_eq_none_iff]
    constructor
    · intro h
      by_contra hc
      apply h
      intro t ht hmem
      refine ⟨?_, by simp⟩
      have hpos : 0 < List.count t imgg.imageOptions.Args := List.count_pos_iff.2 hmem
      have : ¬ 2 ≤ List.count t imgg.imageOptions.Args := fun h2 => hc ⟨t, ht, h2⟩
      omega
    · rintro ⟨t, ht, h2⟩ h
      have hmem : t ∈ imgg.imageOptions.Args := List.count_pos_iff.1 (by omega)
      have := (h t ht hmem).1
      omega
  · intro e he
    obtain ⟨pre, t, post, hs, ht, hin, hpre, hE⟩ := loop_eq_some _ _ _ he
    have htp : t ∈ pre := by
      rcases hin with h1 | h1
      · simp at h1
      · exact h1
    refine ⟨pre, t, post, hs, ht, (hpre t ht htp).1, ?_, hE, by rw [hE]; rfl⟩
    intro u hu
    by_cases hmem : u ∈ pre
    · exact le_of_eq (hpre u hu hmem).1
    · rw [List.count_eq_zero_of_not_mem hmem]
      exact Nat.zero_le _

/-! ## The run life cycle -/

/-- C4, counterexample: on a fresh generator validation passes on the empty token list,
and the subprocess is launched with the option token `--quiet`: the validated list and the
option part of the launched argument vector do not have the same flag tokens. -/
theorem run_validates_before_quiet :
    NewImagePreparer.checkDuplicateFlags = none ∧
    NewImagePreparer.imageOptions.Args.filter (fun t => HasPrefix t "--") = [] ∧
    (NewImagePreparer.run succeedingExec ⟨none⟩).launched.map Command.args =
      [["--quiet", "-", "-"]] ∧
    (NewImagePreparer.run succeedingExec ⟨none⟩).launched.map
        (fun c => (c.args.take (c.args.length - 2)).filter (fun t => HasPrefix t "--")) =
      [["--quiet"]] := by
  decide

/-- C4, as the code has it: whenever `run` gets past validation it launches one subprocess,
with the argument vector of `Args()`: the option tokens serialized after `Quiet` has been
forced to true, then the input and output tokens. The list that was validated is the
option tokens serialized before that, and in it no token beginning with `--` occurs more
than once. When `Quiet` was already true at validation the two lists are the same, so no
token beginning with `--` occurs more than once in the launched option tokens. -/
theorem run_launches_forced_options (exec : Exec) (imgg : ImageGenerator) (ctx : Context)
    (hv : imgg.checkDuplicateFlags = none) :
    (imgg.run exec ctx).launched = [imgg.command] ∧
    imgg.command.args =
      ({ imgg.imageOptions with Quiet := some true } : imageOptions).Args ++
        [if imgg.inputFile = "" then "-" else imgg.inputFile,
         if imgg.OutputFile = "" then "-" else imgg.OutputFile] ∧
    (∀ t, HasPrefix t "--" = true → imgg.imageOptions.Args.count t ≤ 1) ∧
    (imgg.imageOptions.Quiet = some true →
      ({ imgg.imageOptions with Quiet := some true } : imageOptions).Args =
          imgg.imageOptions.Args ∧
        ∀ t, HasPrefix t "--" = true →
          ({ imgg.imageOptions with Quiet := some true } : imageOptions).Args.count t ≤ 1) := by
  have hcount : ∀ t, HasPrefix t "--" = true → imgg.imageOptions.Args.count t ≤ 1 := by
    intro t ht
    have h := (loop_eq_none_iff imgg.imageOptions.Args []).1 hv t ht
    by_cases hmem : t ∈ imgg.imageOptions.Args
    · exact le_of_eq (h hmem).1
    · rw [List.count_eq_zero_of_not_mem hmem]
      exact Nat.zero_le _
  refine ⟨?_, ?_, hcount, ?_⟩
  · unfold ImageGenerator.run
    rw [hv]
    dsimp only
    cases (exec ctx imgg.command).err with
    | none => rfl
    | some e =>
      cases ctx.Err with
      | some ce => rfl
      | none =>
        dsimp only
        split <;> rfl
  · by_cases h1 : imgg.inputFile = "" <;> by_cases h2 : imgg.OutputFile = "" <;>
      simp [ImageGenerator.command, ImageGenerator.Args, Option.Set, h1, h2]
  · intro hq
    have he : ({ imgg.imageOptions with Quiet := some true } : imageOptions) =
        imgg.imageOptions := by
      rw [← hq]
    rw [he]
    exact ⟨rfl, hcount⟩

/-- C4, witness: a fresh generator passes validation and is launched with `--quiet - -`. -/
theorem run_launches_forced_options_witness :
    (NewImagePreparer.run succeedingExec ⟨none⟩).launched = [NewImagePreparer.command] ∧
    NewImagePreparer.command.args = ["--quiet", "-", "-"] :=
  ⟨(run_launches_forced_options succeedingExec NewImagePreparer ⟨none⟩ (by decide)).1,
    by decide⟩

/-- C6: when `checkDuplicateFlags` fails, `run`, `CreateContext`, `CreateFromFile` and
`CreateFromIOReader` return exactly that error, launch no subprocess, and leave the
internal output buffer as it was. -/
theorem run_duplicate_no_launch (exec : Exec) (imgg : ImageGenerator) (ctx : Context)
    (e : GoError) (filename : String) (input : Option Reader)
    (h : imgg.checkDuplicateFlags = some e) :
    imgg.run exec ctx = ⟨some e, imgg, []⟩ ∧
    imgg.CreateContext exec ctx = ⟨some e, imgg, []⟩ ∧
    imgg.CreateFromFile exec filename =
      ⟨some e, { imgg with inputFile := filename, input := none }, []⟩ ∧
    imgg.CreateFromIOReader exec input =
      ⟨some e, { imgg with input := input, inputFile := "" }, []⟩ ∧
    (imgg.run exec ctx).gen.outbuf = imgg.outbuf ∧
    (imgg.CreateFromFile exec filename).gen.outbuf = imgg.outbuf ∧
    (imgg.CreateFromIOReader exec input).gen.outbuf = imgg.outbuf := by
  have h1 : imgg.run exec ctx = ⟨some e, imgg, []⟩ := by
    simp [ImageGenerator.run, h]
  have h2 : imgg.CreateFromFile exec filename =
      ⟨some e, { imgg with inputFile := filename, input := none }, []⟩ := by
    have hc : ({ imgg with inputFile := filename, input := none } :
        ImageGenerator).checkDuplicateFlags = some e := h
    simp [ImageGenerator.CreateFromFile, ImageGenerator.run, hc]
  have h3 : imgg.CreateFromIOReader exec input =
      ⟨some e, { imgg with input := input, inputFile := "" }, []⟩ := by
    have hc : ({ imgg with input := input, inputFile := "" } :
        ImageGenerator).checkDuplicateFlags = some e := h
    simp [ImageGenerator.CreateFromIOReader, ImageGenerator.run, hc]
  refine ⟨h1, h1, h2, h3, ?_, ?_, ?_⟩
  · rw [h1]
  · rw [h2]
  · rw [h3]

/-- C6, witness: the generator whose format value is `--height` and whose height is set. -/
theorem run_duplicate_no_launch_witness :
    heightValueGenerator.checkDuplicateFlags = some (Errorf "duplicate argument: --height") ∧
    heightValueGenerator.run succeedingExec ⟨none⟩ =
      ⟨some (Errorf "duplicate argument: --height"), heightValueGenerator, []⟩ :=
  ⟨by decide,
    (run_duplicate_no_launch succeedingExec heightValueGenerator ⟨none⟩
      (Errorf "duplicate argument: --height") "in.html" none (by decide)).1⟩

/-- C7: for a generator that passes validation, when the subprocess call returns an error
and the context is done at that moment, `run` returns the error of the context, whatever the
subprocess wrote to standard error and whether or not standard error was redirected. -/
theorem run_context_error_wins (exec : Exec) (imgg : ImageGenerator) (ctx : Context)
    (e ctxErr : GoError) (hv : imgg.checkDuplicateFlags = none)
    (he : (exec ctx imgg.command).err = some e) (hc : ctx.Err = some ctxErr) :
    (imgg.run exec ctx).err = some ctxErr ∧ (imgg.run exec ctx).launched = [imgg.command] := by
  simp [ImageGenerator.run, hv, he, hc]

/-- C7, witness: a fresh generator, a failing subprocess and an expired context. -/
theorem run_context_error_wins_witness :
    (NewImagePreparer.run failingExec expiredContext).err =
      some ⟨"context deadline exceeded", false⟩ ∧
    (NewImagePreparer.run failingExec expiredContext).launched = [NewImagePreparer.command] :=
  run_context_error_wins failingExec NewImagePreparer expiredContext
    ⟨"exit status 1", false⟩ ⟨"context deadline exceeded", false⟩
    (by decide) (by decide) (by decide)

/-- C8: for a generator that passes validation: when the subprocess call returns no error,
`run` returns nil; when it returns an error `e` and the context is not done, `run` returns
the captured text, a newline and the message of `e` if no stderr writer was supplied and
the captured text has a non-whitespace character, `e` itself if no stderr writer was
supplied and the captured text is empty or all whitespace, and `e` itself if a stderr
writer was supplied. -/
theorem run_error_report (exec : Exec) (imgg : ImageGenerator) (ctx : Context)
    (hv : imgg.checkDuplicateFlags = none) :
    ((exec ctx imgg.command).err = none → (imgg.run exec ctx).err = none) ∧
    (∀ e, (exec ctx imgg.command).err = some e → ctx.Err = none →
      (imgg.stdErr = none →
        (∃ c ∈ (exec ctx imgg.command).stderr.data, isSpace c = false) →
        (imgg.run exec ctx).err =
          some (Errorf ((exec ctx imgg.command).stderr ++ "\n" ++ e.msg))) ∧
      (imgg.stdErr = none →
        (∀ c ∈ (exec ctx imgg.command).stderr.data, isSpace c = true) →
        (imgg.run exec ctx).err = some e) ∧
      (imgg.stdErr ≠ none → (imgg.run exec ctx).err = some e)) := by
  have hs : imgg.Args.2.stdErr = imgg.stdErr := rfl
  refine ⟨?_, ?_⟩
  · intro he
    simp [ImageGenerator.run, hv, he]
  · intro e he hc
    refine ⟨?_, ?_, ?_⟩
    · intro hn hex
      have ht : TrimSpace (exec ctx imgg.command).stderr ≠ "" := by
        intro h
        obtain ⟨c, hcm, hcs⟩ := hex
        have := (TrimSpace_eq_empty_iff _).1 h c hcm
        rw [hcs] at this
        cases this
      simp [ImageGenerator.run, hv, he, hc, hs, hn, ht]
    · intro hn hall
      have ht : TrimSpace (exec ctx imgg.command).stderr = "" :=
        (TrimSpace_eq_empty_iff _).2 hall
      simp [ImageGenerator.run, hv, he, hc, hs, hn, ht]
    · intro hn
      have hf : imgg.stdErr.isNone = false := by
        cases hw : imgg.stdErr with
        | none => exact absurd hw hn
        | some w => rfl
      simp [ImageGenerator.run, hv, he, hc, hs, hf]

/-- C8, witness: a fresh generator, a failing subprocess that wrote a diagnostic, and a
context that is not done. -/
theorem run_error_report_witness :
    (NewImagePreparer.run failingExec ⟨none⟩).err =
      some (Errorf "Error: Failed to load page\n\nexit status 1") :=
  ((run_error_report failingExec NewImagePreparer ⟨none⟩ (by decide)).2
    ⟨"exit status 1", false⟩ (by decide) rfl).1 rfl ⟨'E', by decide, by decide⟩

/-! ## Binary discovery -/

/-- C9: with a non-empty cached process-wide path `p`, in every environment, `findPath`
returns no error, sets `binPath` of the generator to `p`, leaves the cache equal to `p` and
performs no lookup. -/
theorem findPath_cached (env : PathEnv) (p : String) (imgg : ImageGenerator) (hp : p ≠ "") :
    imgg.findPath env p = ⟨none, { imgg with binPath := p }, p, []⟩ := by
  simp [ImageGenerator.findPath, hp]

/-- C9, witness: a cached path in an environment where every lookup fails. -/
theorem findPath_cached_witness :
    NewImagePreparer.findPath brokenEnv "/usr/local/bin/wkhtmltoimage" =
      ⟨none, { NewImagePreparer with binPath := "/usr/local/bin/wkhtmltoimage" },
        "/usr/local/bin/wkhtmltoimage", []⟩ :=
  findPath_cached brokenEnv "/usr/local/bin/wkhtmltoimage" NewImagePreparer (by decide)

/-- C10: with the cache empty, if a lookup that `findPath` performs (in the directory of
the running program, via the search path, in the `WKHTMLTOIMAGE_PATH` directory) fails with
`exec.ErrDot`, `findPath` returns that error, that lookup is the last one it makes, and
neither the process-wide cache nor `binPath` receives a path. The lookup in the directory
of the running program is made on an absolute path, for which `exec.LookPath` consults no
search path and never reports `exec.ErrDot`: this is the hypothesis `hdir`. -/
theorem findPath_errDot_returns (env : PathEnv) (imgg : ImageGenerator) (f : String)
    (hdir : isErrDot (env.lookPath (env.Join env.exeDir.1 "wkhtmltoimage")).2 = false)
    (hf : f ∈ (imgg.findPath env "").lookups)
    (hd : isErrDot (env.lookPath f).2 = true) :
    (imgg.findPath env "").err = (env.lookPath f).2 ∧
    (imgg.findPath env "").lookups.getLast? = some f ∧
    (imgg.findPath env "").imageBinPath = "" ∧
    (imgg.findPath env "").gen.binPath = "" := by
  have hn : isErrDot none = false := rfl
  rcases hE : env.exeDir with ⟨d, _ | err⟩
  · have hne : f ≠ env.Join d "wkhtmltoimage" := by
      intro h
      rw [hE] at hdir
      rw [h, hdir] at hd
      cases hd
    by_cases h1 : (env.lookPath (env.Join d "wkhtmltoimage")).2 = none ∧
        (env.lookPath (env.Join d "wkhtmltoimage")).1 ≠ ""
    · have hf2 : f = env.Join d "wkhtmltoimage" := by
        simpa [ImageGenerator.findPath, hE, h1] using hf
      exact absurd hf2 hne
    · by_cases h2 : isErrDot (env.lookPath "wkhtmltoimage").2 = true
      · have hf2 : f = env.Join d "wkhtmltoimage" ∨ f = "wkhtmltoimage" := by
          simpa [ImageGenerator.findPath, hE, h1, h2] using hf
        rcases hf2 with hf2 | hf2
        · exact absurd hf2 hne
        · subst hf2
          simp [ImageGenerator.findPath, hE, h1, h2]
      · by_cases h3 : (env.lookPath "wkhtmltoimage").2 = none ∧
            (env.lookPath "wkhtmltoimage").1 ≠ ""
        · have hf2 : f = env.Join d "wkhtmltoimage" ∨ f = "wkhtmltoimage" := by
            simpa [ImageGenerator.findPath, hE, h1, h2, h3, hn] using hf
          rcases hf2 with hf2 | hf2
          · exact absurd hf2 hne
          · subst hf2
            exact absurd hd h2
        · by_cases h4 : env.Getenv "WKHTMLTOIMAGE_PATH" = ""
          · have hf2 : f = env.Join d "wkhtmltoimage" ∨ f = "wkhtmltoimage" := by
              simpa [ImageGenerator.findPath, hE, h1, h2, h3, h4] using hf
            rcases hf2 with hf2 | hf2
            · exact absurd hf2 hne
            · subst hf2
              exact absurd hd h2
          · by_cases h5 : isErrDot (env.lookPath
                (env.Join (env.Getenv "WKHTMLTOIMAGE_PATH") "wkhtmltoimage")).2 = true
            · have hf2 : f = env.Join d "wkhtmltoimage" ∨ f = "wkhtmltoimage" ∨
                  f = env.Join (env.Getenv "WKHTMLTOIMAGE_PATH") "wkhtmltoimage" := by
                simpa [ImageGenerator.findPath, hE, h1, h2, h3, h4, h5] using hf
              rcases hf2 with hf2 | hf2 | hf2
              · exact absurd hf2 hne
              · subst hf2
                exact absurd hd h2
              · subst hf2
                simp [ImageGenerator.findPath, hE, h1, h2, h3, h4, h5]
            · have hf2 : f = env.Join d "wkhtmltoimage" ∨ f = "wkhtmltoimage" ∨
                  f = env.Join (env.Getenv "WKHTMLTOIMAGE_PATH") "wkhtmltoimage" := by
                by_cases h6 : (env.lookPath (env.Join (env.Getenv "WKHTMLTOIMAGE_PATH")
                    "wkhtmltoimage")).2 = none ∧ (env.lookPath (env.Join
                    (env.Getenv "WKHTMLTOIMAGE_PATH") "wkhtmltoimage")).1 ≠ ""
                · simpa [ImageGenerator.findPath, hE, h1, h2, h3, h4, h5, h6, hn] using hf
                · simpa [ImageGenerator.findPath, hE, h1, h2, h3, h4, h5, h6] using hf
              rcases hf2 with hf2 | hf2 | hf2
              · exact absurd hf2 hne
              · subst hf2
                exact absurd hd h2
              · subst hf2
                exact absurd hd h5
  · simp [ImageGenerator.findPath, hE] at hf

/-- C10, witness: nothing lies in the program directory and the search-path lookup reports
`exec.ErrDot`. -/
theorem findPath_errDot_returns_witness :
    (NewImagePreparer.findPath dotSearchEnv "").err =
      some ⟨"cannot run executable found relative to current directory", true⟩ ∧
    (NewImagePreparer.findPath dotSearchEnv "").lookups.getLast? = some "wkhtmltoimage" ∧
    (NewImagePreparer.findPath dotSearchEnv "").imageBinPath = "" ∧
    (NewImagePreparer.findPath dotSearchEnv "").gen.binPath = "" :=
  findPath_errDot_returns dotSearchEnv NewImagePreparer "wkhtmltoimage"
    (by decide) (by decide) (by decide)

end Wkhtml
